import Mathlib

/-!
Verification of the PDFToolkit adaptive compression / range-selection core
(`pdftoolkitapp.py`) against its natural-language specification.

The Python methods are shallowly embedded as pure Lean functions.  External
collaborators (the filesystem, the PyMuPDF/PIL codecs, the Tk dialogs) are
modelled as data supplied to the embedded functions:

* `os.path.getsize(input)`            → `PdfDocument.inputBytes`
* `fitz` page-count probe (None on
  failure, lines 1061-1070)           → `PdfDocument.pageCount : Option Nat`
* size of the `garbage=4, deflate=True`
  lossless save (lines 1053-1058)     → `PdfDocument.losslessBytes`
* size of the rasterize-and-reinsert
  lossy save (lines 1079-1091), which
  depends on the chosen JPEG quality
  and DPI                             → `PdfDocument.lossyBytes : Nat → Nat → Nat`
* `simpledialog.askinteger` (cancel
  returns `None`)                     → `Option Nat` prompt arguments
-/

namespace PDFToolkit

/-- Events performed by `compress_pdf`, in order, used to state sequencing
properties (the lossless pass runs and is measured before any lossy pass). -/
inductive CompressEvent where
  | losslessSave
  | measureLossless
  | probePages
  | lossyPass (quality : Nat) (dpi : Nat)
  | skipMessage (reason : String)
  deriving DecidableEq, Repr

/-- A PDF input document together with the responses of the external codec
and filesystem for it (see module docstring). -/
structure PdfDocument where
  /-- `os.path.splitext(pdf_path)[0]` -/
  stem : String
  /-- `os.path.getsize(pdf_path)` -/
  inputBytes : Nat
  /-- `fitz` page-count probe result; `none` when the probe raises -/
  pageCount : Option Nat
  /-- byte size of the lossless (`garbage=4, deflate=True`) save -/
  losslessBytes : Nat
  /-- byte size of the lossy save as a function of JPEG quality and DPI -/
  lossyBytes : Nat → Nat → Nat

/-- Result of one compression, as observable from the files written and the
dialogs shown (spec §3 `CompressionOutcome`). -/
structure CompressionOutcome where
  outputPath : String
  inputBytes : Nat
  outputBytes : Nat
  usedLossy : Bool
  skippedLossyReason : Option String
  deriving DecidableEq, Repr

/-- `MAX_PAGES_FOR_LOSSY` (line 1073). -/
def MAX_PAGES_FOR_LOSSY : Nat := 500

/-- The guard `page_count is None or page_count <= MAX_PAGES_FOR_LOSSY`
(line 1076). -/
def pageGuardOk (pc : Option Nat) : Bool :=
  match pc with
  | none => true
  | some n => n ≤ MAX_PAGES_FOR_LOSSY

/-- The "Skipped Fallback" dialog text (lines 1095-1098); Python renders the
`page_count` variable with `f"{page_count}"`. -/
def skippedFallbackMessage (pc : Option Nat) : String :=
  "The PDF has " ++ (match pc with | some n => toString n | none => "None") ++
    " pages. Lossy compression was skipped to avoid memory issues."

/-- Embedding of `compress_pdf` (lines 1026-1102) from the point where an
input path has been selected.  `qualityPrompt` and `dpiPrompt` are the raw
dialog results (lines 1027-1044, `none` = cancelled); the defaults 80 and 150
are substituted in-line as the code does.  Returns the outcome together with
the ordered trace of codec events. -/
def compress_pdf (doc : PdfDocument) (qualityPrompt dpiPrompt : Option Nat) :
    CompressionOutcome × List CompressEvent :=
  let quality := qualityPrompt.getD 80
  let dpi := dpiPrompt.getD 150
  let inputSize := doc.inputBytes
  let outputPath := doc.stem ++ "_compressed.pdf"
  let outSize := doc.losslessBytes
  let baseTrace : List CompressEvent :=
    [.losslessSave, .measureLossless, .probePages]
  if inputSize ≤ outSize ∧ pageGuardOk doc.pageCount then
    ({ outputPath := outputPath, inputBytes := inputSize,
       outputBytes := doc.lossyBytes quality dpi, usedLossy := true,
       skippedLossyReason := none },
     baseTrace ++ [.lossyPass quality dpi])
  else if inputSize ≤ outSize then
    ({ outputPath := outputPath, inputBytes := inputSize,
       outputBytes := outSize, usedLossy := false,
       skippedLossyReason := some (skippedFallbackMessage doc.pageCount) },
     baseTrace ++ [.skipMessage (skippedFallbackMessage doc.pageCount)])
  else
    ({ outputPath := outputPath, inputBytes := inputSize,
       outputBytes := outSize, usedLossy := false,
       skippedLossyReason := none },
     baseTrace)

end PDFToolkit

namespace PDFToolkit

/-- Embedding of one iteration of the `batch_compress` loop body
(lines 1604-1630) for a readable document: lossless save to
`stem + "_batch_compressed.pdf"`, then an unconditional lossy fallback with
hard-coded `quality=80` and `zoom = 150/72` whenever the lossless result is
not smaller than the input — there is no page-count guard in this loop. -/
def batch_item_compress (doc : PdfDocument) : CompressionOutcome :=
  let inputSize := doc.inputBytes
  let output := doc.stem ++ "_batch_compressed.pdf"
  let outSize := doc.losslessBytes
  if inputSize ≤ outSize then
    { outputPath := output, inputBytes := inputSize,
      outputBytes := doc.lossyBytes 80 150, usedLossy := true,
      skippedLossyReason := none }
  else
    { outputPath := output, inputBytes := inputSize, outputBytes := outSize,
      usedLossy := false, skippedLossyReason := none }

/-- One element of the list handed to `batch_compress`: a path, plus the
document data when reading/compressing it succeeds.  `doc = none` models a
file for which the loop body raises (e.g. unreadable input); the handler at
lines 1631-1633 is `except Exception: continue`. -/
structure BatchInput where
  path : String
  doc : Option PdfDocument

/-- Embedding of the `batch_compress` loop (lines 1604-1633).  The return
value is the ordered list of (input path, outcome) pairs for the items whose
compression succeeded — the only observable record the code produces (the
output files written); a failing item is skipped silently and leaves no
entry. -/
def batch_compress (files : List BatchInput) : List (String × CompressionOutcome) :=
  match files with
  | [] => []
  | f :: rest =>
    match f.doc with
    | none => batch_compress rest
    | some d => (f.path, batch_item_compress d) :: batch_compress rest

end PDFToolkit

namespace PDFToolkit

/-- C1: for a document whose page count exceeds `MAX_PAGES_FOR_LOSSY` and whose
lossless pass did not shrink the file, `compress_pdf` reports `usedLossy =
false` with a non-empty `skippedLossyReason`, keeps the lossless result as the
final output, and performs no lossy pass. -/
theorem compress_skips_lossy_for_large_docs
    (doc : PdfDocument) (qp dp : Option Nat) (n : Nat)
    (hpc : doc.pageCount = some n) (hn : MAX_PAGES_FOR_LOSSY < n)
    (hsize : doc.inputBytes ≤ doc.losslessBytes) :
    (compress_pdf doc qp dp).1.usedLossy = false ∧
    (∃ s, (compress_pdf doc qp dp).1.skippedLossyReason = some s ∧ s ≠ "") ∧
    (compress_pdf doc qp dp).1.outputBytes = doc.losslessBytes ∧
    (∀ q d, CompressEvent.lossyPass q d ∉ (compress_pdf doc qp dp).2) := by
  have hguard : pageGuardOk doc.pageCount = false := by
    simp [pageGuardOk, hpc]
    omega
  have hmsg : skippedFallbackMessage doc.pageCount ≠ "" := by
    intro h
    have := congrArg String.length h
    simp [skippedFallbackMessage, hpc, String.length_append] at this
    exact absurd this.1.1 (by decide)
  unfold compress_pdf
  simp only [hguard, Bool.false_eq_true, and_false, if_false, if_pos hsize]
  exact ⟨by simp, ⟨skippedFallbackMessage doc.pageCount, by simp, hmsg⟩, by simp,
    by intro q d; simp⟩

/-- Witness for C1 at a concrete 501-page document whose lossless pass did not
shrink it. -/
theorem compress_skips_lossy_for_large_docs_witness :
    (compress_pdf
      { stem := "big", inputBytes := 1000, pageCount := some 501,
        losslessBytes := 1000, lossyBytes := fun _ _ => 900 }
      none none).1.usedLossy = false :=
  (compress_skips_lossy_for_large_docs
    { stem := "big", inputBytes := 1000, pageCount := some 501,
      losslessBytes := 1000, lossyBytes := fun _ _ => 900 }
    none none 501 rfl (by decide) (by decide)).1

/-- C2: `compress_pdf` always performs the lossless save and measures its
size as its first two actions, before any lossy pass can appear in the
trace; `usedLossy` is `false` whenever the lossless output is strictly
smaller than the input; and when escalation runs, the lossy result is
accepted as the final output bytes for every possible lossy size — the code
never compares it with the input. -/
theorem compress_lossless_first (doc : PdfDocument) (qp dp : Option Nat) :
    (compress_pdf doc qp dp).2.take 2 =
      [CompressEvent.losslessSave, CompressEvent.measureLossless] ∧
    (doc.losslessBytes < doc.inputBytes →
      (compress_pdf doc qp dp).1.usedLossy = false ∧
      (compress_pdf doc qp dp).1.outputBytes = doc.losslessBytes) ∧
    (doc.inputBytes ≤ doc.losslessBytes → pageGuardOk doc.pageCount = true →
      (compress_pdf doc qp dp).1.usedLossy = true ∧
      (compress_pdf doc qp dp).1.outputBytes =
        doc.lossyBytes (qp.getD 80) (dp.getD 150)) := by
  refine ⟨?_, ?_, ?_⟩
  · by_cases hc : doc.inputBytes ≤ doc.losslessBytes <;>
      by_cases hg : pageGuardOk doc.pageCount = true <;>
        simp [compress_pdf, hc, hg]
  · intro h
    have hc : ¬ (doc.inputBytes ≤ doc.losslessBytes) := by omega
    simp [compress_pdf, hc]
  · intro hc hg
    simp [compress_pdf, hc, hg]

/-- Witness for C2: a document whose lossless pass shrinks it stays lossless;
one whose lossless pass grows it escalates and the lossy size (here
`quality + dpi = 80 + 150 = 230`, even though 230 < 1000 is irrelevant: any
value is accepted) becomes the output. -/
theorem compress_lossless_first_witness :
    (compress_pdf
      { stem := "s", inputBytes := 1000, pageCount := some 10,
        losslessBytes := 900, lossyBytes := fun _ _ => 9999 }
      none none).1.usedLossy = false ∧
    (compress_pdf
      { stem := "g", inputBytes := 1000, pageCount := some 10,
        losslessBytes := 1200, lossyBytes := fun q d => q + d }
      none none).1.usedLossy = true ∧
    (compress_pdf
      { stem := "g", inputBytes := 1000, pageCount := some 10,
        losslessBytes := 1200, lossyBytes := fun q d => q + d }
      none none).1.outputBytes = 230 :=
  ⟨((compress_lossless_first
      { stem := "s", inputBytes := 1000, pageCount := some 10,
        losslessBytes := 900, lossyBytes := fun _ _ => 9999 }
      none none).2.1 (by decide)).1,
   ((compress_lossless_first
      { stem := "g", inputBytes := 1000, pageCount := some 10,
        losslessBytes := 1200, lossyBytes := fun q d => q + d }
      none none).2.2 (by decide) (by decide)).1,
   ((compress_lossless_first
      { stem := "g", inputBytes := 1000, pageCount := some 10,
        losslessBytes := 1200, lossyBytes := fun q d => q + d }
      none none).2.2 (by decide) (by decide)).2⟩

/-- C10: cancelling the quality prompt or the DPI prompt does not cancel the
compression: the run with a cancelled prompt is identical — outcome and
event trace — to the run with the default (quality 80, DPI 150) supplied
explicitly, and the compression still proceeds through the lossless save. -/
theorem compress_prompt_defaults (doc : PdfDocument) (qp dp : Option Nat) :
    compress_pdf doc none dp = compress_pdf doc (some 80) dp ∧
    compress_pdf doc qp none = compress_pdf doc qp (some 150) ∧
    CompressEvent.losslessSave ∈ (compress_pdf doc none none).2 := by
  refine ⟨rfl, rfl, ?_⟩
  by_cases hc : doc.inputBytes ≤ doc.losslessBytes <;>
    by_cases hg : pageGuardOk doc.pageCount = true <;>
      simp [compress_pdf, hc, hg]

end PDFToolkit

namespace PDFToolkit

/-- Helper: the batch loop produces exactly one (path, outcome) record per
readable input, in input order, and nothing for a failing input. -/
theorem batch_compress_eq_filterMap (files : List BatchInput) :
    batch_compress files =
      files.filterMap
        (fun f => f.doc.map (fun d => (f.path, batch_item_compress d))) := by
  induction files with
  | nil => rfl
  | cons f rest ih => cases hd : f.doc <;> simp [batch_compress, hd, ih]

/-- C3 counterexample: for the two-element batch whose first item is
unreadable, the code produces a single success record and no error record at
all — not two `(input_path, outcome_or_error)` entries.  The loop's handler
is `except Exception: continue`; nothing is recorded for the failing item. -/
theorem batch_no_error_record_counterexample :
    (batch_compress
      [{ path := "bad.pdf", doc := none },
       { path := "good.pdf",
         doc := some { stem := "good", inputBytes := 1000, pageCount := some 3,
                       losslessBytes := 800, lossyBytes := fun _ _ => 700 } }]).length
      = 1 ∧
    (batch_compress
      [{ path := "bad.pdf", doc := none },
       { path := "good.pdf",
         doc := some { stem := "good", inputBytes := 1000, pageCount := some 3,
                       losslessBytes := 800, lossyBytes := fun _ _ => 700 } }]).length
      ≠ 2 := by
  constructor
  · rfl
  · intro h
    simp [batch_compress, batch_item_compress] at h

/-- Helper: the batch produces one record per readable input. -/
theorem batch_compress_length (l : List BatchInput) :
    (batch_compress l).length = l.countP (fun f => f.doc.isSome) := by
  induction l with
  | nil => rfl
  | cons f rest ih =>
    cases hd : f.doc <;>
      simp [batch_compress, hd, ih, List.countP_cons]

/-- Helper: every batch input is either readable or not. -/
theorem batch_countP_split (l : List BatchInput) :
    l.countP (fun f => f.doc.isSome) + l.countP (fun f => f.doc.isNone)
      = l.length := by
  induction l with
  | nil => rfl
  | cons f rest ih =>
    cases hd : f.doc <;> simp [List.countP_cons, hd] <;> omega

/-- C3 amended: given N inputs of which exactly one is unreadable, the batch
loop never aborts: it runs through all N inputs in their original order and
produces exactly N−1 success records — one per readable input, in input
order — while the failing item is silently skipped with no error record. -/
theorem batch_isolates_failures (files : List BatchInput)
    (h : files.countP (fun f => f.doc.isNone) = 1) :
    (batch_compress files).length = files.length - 1 ∧
    batch_compress files =
      files.filterMap
        (fun f => f.doc.map (fun d => (f.path, batch_item_compress d))) := by
  refine ⟨?_, batch_compress_eq_filterMap files⟩
  have hlen := batch_compress_length files
  have hsplit := batch_countP_split files
  omega

/-- Witness for C3 (amended) on a concrete three-element batch with one
unreadable item. -/
theorem batch_isolates_failures_witness :
    (batch_compress
      [{ path := "a.pdf",
         doc := some { stem := "a", inputBytes := 500, pageCount := some 2,
                       losslessBytes := 400, lossyBytes := fun _ _ => 300 } },
       { path := "bad.pdf", doc := none },
       { path := "c.pdf",
         doc := some { stem := "c", inputBytes := 500, pageCount := some 2,
                       losslessBytes := 600, lossyBytes := fun _ _ => 300 } }]).length
      = 3 - 1 :=
  (batch_isolates_failures
    [{ path := "a.pdf",
       doc := some { stem := "a", inputBytes := 500, pageCount := some 2,
                     losslessBytes := 400, lossyBytes := fun _ _ => 300 } },
     { path := "bad.pdf", doc := none },
     { path := "c.pdf",
       doc := some { stem := "c", inputBytes := 500, pageCount := some 2,
                     losslessBytes := 600, lossyBytes := fun _ _ => 300 } }]
    (by rfl)).1

/-- C4 counterexample: a 501-page document whose lossless pass did not shrink
it.  Single-file `compress_pdf` (even with the same quality 80 / DPI 150 the
batch hard-codes) skips the lossy pass via the `MAX_PAGES_FOR_LOSSY` guard,
but the batch loop — which has no page-count guard — runs it: the two are not
equivalent. -/
theorem batch_item_differs_from_compress_counterexample :
    (batch_item_compress
      { stem := "large", inputBytes := 1000, pageCount := some 501,
        losslessBytes := 1000, lossyBytes := fun _ _ => 700 }).usedLossy = true ∧
    (compress_pdf
      { stem := "large", inputBytes := 1000, pageCount := some 501,
        losslessBytes := 1000, lossyBytes := fun _ _ => 700 }
      (some 80) (some 150)).1.usedLossy = false := by
  constructor <;> rfl

/-- C4 amended: a batch item undergoes the same compression decision and
produces the same sizes and lossy/lossless status as single-file
`compress_pdf` only for the fixed parameters quality 80 and DPI 150 (which
the batch loop hard-codes, ignoring any request) and only when the document's
page count is unknown or at most `MAX_PAGES_FOR_LOSSY`; the batch loop lacks
the page-count guard, and the output name suffix differs
(`_batch_compressed` vs `_compressed`). -/
theorem batch_item_matches_compress (doc : PdfDocument)
    (hg : pageGuardOk doc.pageCount = true) :
    (batch_item_compress doc).usedLossy
      = (compress_pdf doc (some 80) (some 150)).1.usedLossy ∧
    (batch_item_compress doc).outputBytes
      = (compress_pdf doc (some 80) (some 150)).1.outputBytes ∧
    (batch_item_compress doc).inputBytes
      = (compress_pdf doc (some 80) (some 150)).1.inputBytes ∧
    (batch_item_compress doc).skippedLossyReason
      = (compress_pdf doc (some 80) (some 150)).1.skippedLossyReason := by
  by_cases hc : doc.inputBytes ≤ doc.losslessBytes <;>
    simp [batch_item_compress, compress_pdf, hc, hg]

/-- `MAX_PAGES_FOR_FULL_EXTRACTION` (`pdf_to_excel`, line 796). -/
def MAX_PAGES_FOR_FULL_EXTRACTION : Nat := 100

/-- `MAX_PAGES_FOR_FULL_CONVERT` (`pdf_to_word`, line 910). -/
def MAX_PAGES_FOR_FULL_CONVERT : Nat := 100

/-- `MAX_PAGES_FOR_FULL_CONVERSION` (`pdf_to_images`, line 1541). -/
def MAX_PAGES_FOR_FULL_CONVERSION : Nat := 100

/-- Embedding of the `pdf_to_excel` range selection (lines 794-823).
`totalPages` is the probe result (`none` when `fitz.open` raised);
`startPrompt`/`endPrompt` are the two `askinteger` results (`none` =
cancelled; the dialog enforces the min/max bounds, so a supplied value lies
in them).  Result `none` means the method returned early (operation
cancelled); otherwise the 1-based `(start_page, end_page)` pair, with
`end_page = none` meaning "through the last page". -/
def excelSelectRange (totalPages : Option Nat) (startPrompt endPrompt : Option Nat) :
    Option (Nat × Option Nat) :=
  match totalPages with
  | some tp =>
    if MAX_PAGES_FOR_FULL_EXTRACTION < tp then
      match startPrompt with
      | none => none
      | some s =>
        match endPrompt with
        | none => none
        | some e => some (s, some e)
    else some (1, some tp)
  | none => some (1, none)

/-- How many times `pdf_to_excel` invokes `simpledialog.askinteger` during
range selection (the end-page dialog is only reached when the start-page one
returned a value). -/
def excelPromptCount (totalPages : Option Nat) (startPrompt : Option Nat) : Nat :=
  match totalPages with
  | some tp =>
    if MAX_PAGES_FOR_FULL_EXTRACTION < tp then
      match startPrompt with
      | none => 1
      | some _ => 2
    else 0
  | none => 0

/-- Embedding of the `pdf_to_word` range selection (lines 908-935); result
`none` means the method returned early, otherwise the zero-based
`(start_idx, end_idx)` passed to the converter (lines 936-941).  Note the
small-document branch keeps `(0, None)`; there is no `elif` here. -/
def wordSelectRange (totalPages : Option Nat) (startPrompt endPrompt : Option Nat) :
    Option (Nat × Option Nat) :=
  match totalPages with
  | some tp =>
    if MAX_PAGES_FOR_FULL_CONVERT < tp then
      match startPrompt with
      | none => none
      | some s =>
        match endPrompt with
        | none => none
        | some e => some (s - 1, some (e - 1))
    else some (0, none)
  | none => some (0, none)

/-- Embedding of the `pdf_to_images` range selection (lines 1538-1568);
result `none` means the method returned early, otherwise the 1-based
`(first_page, last_page)` handed to `convert_from_path`. -/
def imagesSelectRange (totalPages : Option Nat) (startPrompt endPrompt : Option Nat) :
    Option (Nat × Option Nat) :=
  match totalPages with
  | some tp =>
    if MAX_PAGES_FOR_FULL_CONVERSION < tp then
      match startPrompt with
      | none => none
      | some s =>
        match endPrompt with
        | none => none
        | some e => some (s, some e)
    else some (1, some tp)
  | none => some (1, none)

/-- Prompt invocations of `pdf_to_images` during range selection. -/
def imagesPromptCount (totalPages : Option Nat) (startPrompt : Option Nat) : Nat :=
  match totalPages with
  | some tp =>
    if MAX_PAGES_FOR_FULL_CONVERSION < tp then
      match startPrompt with
      | none => 1
      | some _ => 2
    else 0
  | none => 0

/-- The 0-based page indices `pdf_to_excel` enumerates (lines 827-830):
`range(len(pdf.pages))` when no end page, else `range(start_page - 1,
end_page)`. -/
def excelPageIndices (startPage : Nat) (endPage : Option Nat) (avail : Nat) :
    List Nat :=
  match endPage with
  | none => List.range avail
  | some e => List.range' (startPage - 1) (e - (startPage - 1))

/-- The page-access loop of `pdf_to_excel` (lines 831-835): each index is
looked up with `pdf.pages[idx]`; an `IndexError` (index past the `avail`
existing pages) breaks out of the loop.  Returns the indices actually
processed, in order. -/
def processPages (avail : Nat) : List Nat → List Nat
  | [] => []
  | i :: rest => if i < avail then i :: processPages avail rest else []

/-- Embedding of line 779. -/
def pdf_to_excel_output_path (stem : String) : String := stem ++ "_tables.xlsx"

/-- Embedding of line 710. -/
def pdf_to_text_output_path (stem : String) : String := stem ++ "_extracted.txt"

/-- `pdf_to_excel` from the probe to the page loop: `none` when the
operation was cancelled (no output file written, no page I/O), otherwise the
output workbook path and the 0-based pages actually read. -/
def pdf_to_excel_run (stem : String) (totalPages : Option Nat)
    (startPrompt endPrompt : Option Nat) (avail : Nat) :
    Option (String × List Nat) :=
  match excelSelectRange totalPages startPrompt endPrompt with
  | none => none
  | some (s, e) =>
    some (pdf_to_excel_output_path stem, processPages avail (excelPageIndices s e avail))

/-- `pdf_to_word` from the probe to the converter call: `none` when the
operation was cancelled, otherwise the docx path and the zero-based
`(start, optional end)` arguments of `cv.convert` (lines 936-942). -/
def pdf_to_word_run (stem : String) (totalPages : Option Nat)
    (startPrompt endPrompt : Option Nat) : Option (String × Nat × Option Nat) :=
  match wordSelectRange totalPages startPrompt endPrompt with
  | none => none
  | some (s, e) => some (stem ++ ".docx", s, e)

end PDFToolkit

namespace PDFToolkit

/-- C5: when range selection prompts (page count above the ceiling) and the
start-page or the end-page dialog is cancelled, `pdf_to_excel` and
`pdf_to_word` return early: no output path, no page I/O, no converter call —
the whole operation is cancelled. -/
theorem prompt_cancellation_is_total (stem : String) (tp : Nat)
    (sp ep : Option Nat) (avail : Nat)
    (hlarge : MAX_PAGES_FOR_FULL_EXTRACTION < tp)
    (hcancel : sp = none ∨ ep = none) :
    pdf_to_excel_run stem (some tp) sp ep avail = none ∧
    pdf_to_word_run stem (some tp) sp ep = none := by
  have hconv : MAX_PAGES_FOR_FULL_CONVERT < tp := hlarge
  constructor
  · rcases hcancel with h | h
    · subst h; simp [pdf_to_excel_run, excelSelectRange, hlarge]
    · subst h; cases sp <;> simp [pdf_to_excel_run, excelSelectRange, hlarge]
  · rcases hcancel with h | h
    · subst h; simp [pdf_to_word_run, wordSelectRange, hconv]
    · subst h; cases sp <;> simp [pdf_to_word_run, wordSelectRange, hconv]

/-- Witness for C5: a 150-page document with the end-page dialog cancelled. -/
theorem prompt_cancellation_is_total_witness :
    pdf_to_excel_run "doc" (some 150) (some 3) none 150 = none ∧
    pdf_to_word_run "doc" (some 150) (some 3) none = none :=
  prompt_cancellation_is_total "doc" 150 (some 3) none 150 (by decide)
    (Or.inr rfl)

/-- C6: for a page count at most the ceiling, and likewise for an unknown
page count, range selection returns the full range — `(1, some p)`
respectively `(1, none)` — for every possible prompt oracle, and invokes the
prompt dialog zero times; both for `pdf_to_excel` and `pdf_to_images`. -/
theorem select_range_small_no_prompt (tp : Nat) (sp ep : Option Nat)
    (hsmall : tp ≤ MAX_PAGES_FOR_FULL_EXTRACTION) :
    (excelSelectRange (some tp) sp ep = some (1, some tp) ∧
      excelPromptCount (some tp) sp = 0 ∧
      imagesSelectRange (some tp) sp ep = some (1, some tp) ∧
      imagesPromptCount (some tp) sp = 0) ∧
    (excelSelectRange none sp ep = some (1, none) ∧
      excelPromptCount none sp = 0 ∧
      imagesSelectRange none sp ep = some (1, none) ∧
      imagesPromptCount none sp = 0) := by
  have hconv : ¬ (MAX_PAGES_FOR_FULL_CONVERSION < tp) := by
    simpa [MAX_PAGES_FOR_FULL_CONVERSION] using Nat.not_lt.mpr hsmall
  have hextr : ¬ (MAX_PAGES_FOR_FULL_EXTRACTION < tp) := Nat.not_lt.mpr hsmall
  refine ⟨⟨?_, ?_, ?_, ?_⟩, rfl, rfl, rfl, rfl⟩ <;>
    simp [excelSelectRange, excelPromptCount, imagesSelectRange,
      imagesPromptCount, hconv, hextr]

/-- Witness for C6 at 50 pages with prompt values supplied (they are
ignored). -/
theorem select_range_small_no_prompt_witness :
    excelSelectRange (some 50) (some 7) (some 9) = some (1, some 50) ∧
    excelPromptCount (some 50) (some 7) = 0 :=
  ⟨((select_range_small_no_prompt 50 (some 7) (some 9) (by decide)).1).1,
   ((select_range_small_no_prompt 50 (some 7) (some 9) (by decide)).1).2.1⟩

/-- Helper: the page-access loop stops at the first index past the available
pages, so processing `range' a n` keeps exactly the first
`min n (avail - a)` indices. -/
theorem processPages_range' (avail a n : Nat) :
    processPages avail (List.range' a n) = List.range' a (min n (avail - a)) := by
  induction n generalizing a with
  | zero => simp [processPages]
  | succ n ih =>
    by_cases h : a < avail
    · have hmin : min (n + 1) (avail - a) = min n (avail - (a + 1)) + 1 := by
        omega
      rw [List.range'_succ, hmin, List.range'_succ]
      simp [processPages, h, ih]
    · have h0 : min (n + 1) (avail - a) = 0 := by omega
      rw [List.range'_succ, h0]
      simp [processPages, h]

/-- C7: when the selected end page exceeds the pages available at iteration
time, the `pdf_to_excel` page loop clamps: it processes exactly the indices
it would process with the end clamped to the available page count, every
processed index denotes an existing page, and the loop terminates via the
`IndexError` break instead of failing. -/
theorem page_iteration_clamps (s e avail : Nat) (h : avail < e) :
    processPages avail (excelPageIndices s (some e) avail)
      = excelPageIndices s (some (min e avail)) avail ∧
    ∀ i ∈ processPages avail (excelPageIndices s (some e) avail), i < avail := by
  have key : processPages avail (excelPageIndices s (some e) avail)
      = List.range' (s - 1) (min e avail - (s - 1)) := by
    unfold excelPageIndices
    rw [processPages_range']
    congr 1
    omega
  constructor
  · rw [key]
    rfl
  · intro i hi
    rw [key] at hi
    have := List.mem_range'_1.mp hi
    omega

/-- Witness for C7: end page 10 requested with only 5 pages available,
starting at page 2: pages 1-4 (0-based) are processed. -/
theorem page_iteration_clamps_witness :
    processPages 5 (excelPageIndices 2 (some 10) 5)
      = excelPageIndices 2 (some 5) 5 := by
  have := (page_iteration_clamps 2 10 5 (by decide)).1
  simpa using this

/-- Witness for C4 (amended) at a concrete 10-page document that escalates. -/
theorem batch_item_matches_compress_witness :
    (batch_item_compress
      { stem := "w", inputBytes := 100, pageCount := some 10,
        losslessBytes := 120, lossyBytes := fun q d => q + d }).usedLossy
      = (compress_pdf
      { stem := "w", inputBytes := 100, pageCount := some 10,
        losslessBytes := 120, lossyBytes := fun q d => q + d }
      (some 80) (some 150)).1.usedLossy :=
  (batch_item_matches_compress
    { stem := "w", inputBytes := 100, pageCount := some 10,
      losslessBytes := 120, lossyBytes := fun q d => q + d }
    (by decide)).1

end PDFToolkit

namespace PDFToolkit

/-- A previously dropped path together with the filesystem facts
`get_dropped_files` consults about it. -/
structure DroppedFile where
  path : String
  /-- `os.path.splitext(path)[1]` -/
  ext : String
  /-- `os.path.isfile(path)` -/
  isFile : Bool
  deriving DecidableEq, Repr

/-- Python's `str.lower()`, modelled character-wise (file extensions are
ASCII, where the two agree). -/
def strLower (s : String) : String := ⟨s.data.map Char.toLower⟩

/-- The filter predicate of lines 545-550:
`os.path.splitext(p)[1].lower() in allowed_exts and os.path.isfile(p)`.
(Every call site passes `allowed_exts` in lowercase.) -/
def intakeMatches (allowedExts : List String) (f : DroppedFile) : Bool :=
  allowedExts.contains (strLower f.ext) && f.isFile

/-- Embedding of `get_dropped_files` (lines 532-553). -/
def get_dropped_files (lastDroppedPaths : List DroppedFile)
    (allowedExts : List String) (multiple : Bool) : Option (List DroppedFile) :=
  if lastDroppedPaths.isEmpty then none
  else
    match lastDroppedPaths.filter (intakeMatches allowedExts) with
    | [] => none
    | f :: fs => if multiple then some (f :: fs) else some [f]

/-- C8: `get_dropped_files` keeps exactly the paths whose lowercased
extension is in the accepted set and that are regular files, as an
order-preserving sublist of the input; with `multiple = true` it returns
that whole filtered list (when non-empty), with `multiple = false` it
returns a one-element list holding the first match, and in either mode it
returns `none` exactly when nothing matches. -/
theorem classify_filters (paths : List DroppedFile) (allowedExts : List String) :
    (paths.filter (intakeMatches allowedExts)).Sublist paths ∧
    (paths.filter (intakeMatches allowedExts) ≠ [] →
      get_dropped_files paths allowedExts true
        = some (paths.filter (intakeMatches allowedExts))) ∧
    get_dropped_files paths allowedExts false
      = (paths.filter (intakeMatches allowedExts)).head?.map (fun f => [f]) ∧
    (∀ m, get_dropped_files paths allowedExts m = none ↔
      paths.filter (intakeMatches allowedExts) = []) := by
  refine ⟨List.filter_sublist paths, ?_, ?_, ?_⟩
  · intro h
    cases hp : paths with
    | nil => subst hp; simp at h
    | cons p ps =>
      cases hf : (p :: ps).filter (intakeMatches allowedExts) with
      | nil => rw [hp] at h; exact absurd hf h
      | cons f fs => subst hp; simp [get_dropped_files, hf]
  · cases hp : paths with
    | nil => rfl
    | cons p ps =>
      cases hf : (p :: ps).filter (intakeMatches allowedExts) with
      | nil => simp [get_dropped_files, hf]
      | cons f fs => simp [get_dropped_files, hf]
  · intro m
    cases hp : paths with
    | nil => simp [get_dropped_files]
    | cons p ps =>
      cases hf : (p :: ps).filter (intakeMatches allowedExts) with
      | nil => simp [get_dropped_files, hf]
      | cons f fs => cases m <;> simp [get_dropped_files, hf]

/-- Witness for C8 at the spec's P6 example: `a.pdf` is kept, `b.txt` alone
yields `none`. -/
theorem classify_filters_witness :
    get_dropped_files
      [⟨"a.pdf", ".pdf", true⟩, ⟨"b.txt", ".txt", true⟩] [".pdf"] true
      = some [⟨"a.pdf", ".pdf", true⟩] ∧
    get_dropped_files [⟨"b.txt", ".txt", true⟩] [".pdf"] false = none := by
  constructor
  · rw [(classify_filters
      [⟨"a.pdf", ".pdf", true⟩, ⟨"b.txt", ".txt", true⟩] [".pdf"]).2.1
      (by decide)]
    decide
  · exact ((classify_filters [⟨"b.txt", ".txt", true⟩] [".pdf"]).2.2.2
      false).mpr (by decide)

/-- Modelled from the spec: §6 persisted state says output filenames are
"derived deterministically as `<input-stem><fixed-suffix><original-extension>`".
This definition follows the spec's words only, for comparison with the
code's naming. -/
def spec_output_name (stem suffix ext : String) : String := stem ++ suffix ++ ext

/-- C9 counterexample: for input `report.pdf`, `pdf_to_text` writes
`report_extracted.txt` and `pdf_to_excel` writes `report_tables.xlsx`,
not the `report_extracted.pdf` / `report_tables.pdf` that the
stem-suffix-original-extension rule prescribes: the extension is the
operation's fixed output extension, not the input's. -/
theorem output_name_counterexample :
    pdf_to_text_output_path "report"
      ≠ spec_output_name "report" "_extracted" ".pdf" ∧
    pdf_to_excel_output_path "report"
      ≠ spec_output_name "report" "_tables" ".pdf" := by
  constructor <;> decide

/-- C9 amended: every output filename is derived deterministically as
`<input-stem><fixed-suffix>`, where the fixed suffix carries the operation's
fixed output extension: `_compressed.pdf`, `_batch_compressed.pdf`,
`_tables.xlsx`, `_extracted.txt`. -/
theorem output_names_deterministic (doc : PdfDocument) (qp dp : Option Nat)
    (stem : String) :
    (compress_pdf doc qp dp).1.outputPath = doc.stem ++ "_compressed.pdf" ∧
    (batch_item_compress doc).outputPath = doc.stem ++ "_batch_compressed.pdf" ∧
    pdf_to_excel_output_path stem = stem ++ "_tables.xlsx" ∧
    pdf_to_text_output_path stem = stem ++ "_extracted.txt" := by
  refine ⟨?_, ?_, rfl, rfl⟩
  · by_cases hc : doc.inputBytes ≤ doc.losslessBytes <;>
      by_cases hg : pageGuardOk doc.pageCount = true <;>
        simp [compress_pdf, hc, hg]
  · by_cases hc : doc.inputBytes ≤ doc.losslessBytes <;>
      simp [batch_item_compress, hc]

end PDFToolkit
